import Mathlib

/-!
Verification development for the aimg repository's image-viewer interaction
logic and gallery synchronisation logic.  The definitions below are shallow
embeddings of the JavaScript source:

* `Aimg.Part004` embeds the image-viewer component found at
  `src/unnamed/part_004` (the variant with `getPanBounds`/`clampPan`).
* `Aimg.WebViewer` embeds `src/web/src/components/ImageViewer.vue`
  (the variant without pan clamping).
* `Aimg.onWheelSwitch` embeds the wheel switch-mode branch of `onWheel`,
  which is textually identical in both viewer files.
* `Aimg.Gallery` embeds the image-list fetching of `src/web/src/App.vue`
  and `src/mobile/app.js`, the mobile queue-status polling tick, and the
  `navigateImage`/`handleKeydown` navigation handlers.

JavaScript numbers are modelled as rationals (all constants appearing in
this code — 1.1, 1.02, 0.5, 20, 40, 50, 65 — and the inputs used in the
proofs are exactly representable, and the clamping/threshold properties at
stake are order-theoretic, so the rational model is faithful).
-/

namespace Aimg

/-- An image record as held in the gallery list.  Identity is `path`
(`file_path` in the source); `mtime` stands in for the remaining
server-provided fields (`file_mtime`, width, height, ...) that a refresh
may update. -/
structure Image where
  path : String
  mtime : Nat
deriving DecidableEq, Repr

namespace Part004

/-- Viewer state of the `part_004` component: the refs `viewScale`,
`minScale`, `viewX`, `viewY` together with the geometry read from the DOM
(`imageRef.naturalWidth/Height`, `containerRef.clientWidth/Height`),
which is fixed during a gesture. -/
structure St where
  viewScale : ℚ
  minScale : ℚ
  viewX : ℚ
  viewY : ℚ
  natW : ℚ
  natH : ℚ
  contW : ℚ
  contH : ℚ
deriving DecidableEq, Repr

/-- `getPanBounds` of part_004: half of the amount by which the scaled
image exceeds the container, floored at 0; `(0, 0)` when no image is
loaded (`naturalWidth`/`naturalHeight` falsy). -/
def getPanBounds (s : St) (scale : ℚ) : ℚ × ℚ :=
  if s.natW = 0 ∨ s.natH = 0 then (0, 0)
  else
    (max 0 ((s.natW * scale - s.contW) / 2),
     max 0 ((s.natH * scale - s.contH) / 2))

/-- `clampPan` of part_004: clamp a candidate pan offset into
`[-maxX, maxX] × [-maxY, maxY]`. -/
def clampPan (s : St) (x y scale : ℚ) : ℚ × ℚ :=
  let b := getPanBounds s scale
  (min b.1 (max (-b.1) x), min b.2 (max (-b.2) y))

/-- `isZoomedForPan` of part_004: `viewScale > minScale * 1.02`. -/
def isZoomedForPan (s : St) : Bool :=
  s.viewScale > s.minScale * (1.02 : ℚ)

/-- `onDrag` of part_004 (mouse move while dragging): set the pan to the
clamped pointer offset from the drag anchor. -/
def onDrag (s : St) (clientX clientY dragStartX dragStartY : ℚ) : St :=
  let c := clampPan s (clientX - dragStartX) (clientY - dragStartY) s.viewScale
  { s with viewX := c.1, viewY := c.2 }

/-- Zoom-mode branch of `onWheel` in part_004: multiply or divide the
scale by 1.1 (wheel-down zooms out), clamp to `[minScale, 20]`, then
re-clamp the pan against the new scale's bounds. -/
def onWheelZoom (s : St) (deltaY : ℚ) : St :=
  let newScale0 := if deltaY > 0 then s.viewScale / (1.1 : ℚ) else s.viewScale * (1.1 : ℚ)
  let newScale := max s.minScale (min newScale0 20)
  let c := clampPan s s.viewX s.viewY newScale
  { s with viewScale := newScale, viewX := c.1, viewY := c.2 }

/-- Pinch branch of `onTouchMove` in part_004: scale by the ratio of the
current to the previous inter-finger distance, clamp to `[minScale, 20]`,
then re-clamp the pan against the new scale's bounds. -/
def onPinch (s : St) (dist lastDist : ℚ) : St :=
  let newScale := max s.minScale (min (s.viewScale * (dist / lastDist)) 20)
  let c := clampPan s s.viewX s.viewY newScale
  { s with viewScale := newScale, viewX := c.1, viewY := c.2 }

/-- Gesture state of part_004: the viewer state plus the touch-tracking
refs `touchStartX`, `touchLastX/Y`, `swipeDeltaX`, `edgeSwipeDeltaX`. -/
structure GSt where
  view : St
  touchStartX : ℚ
  touchLastX : ℚ
  touchLastY : ℚ
  swipeDeltaX : ℚ
  edgeSwipeDeltaX : ℚ
deriving DecidableEq, Repr

/-- Single-finger branch of `onTouchMove` in part_004.  Not zoomed: track
the swipe distance and pin the pan to `(0,0)`.  Zoomed: pan with clamping;
accumulate an edge-swipe distance only while the drag pushes against the
horizontal clamp boundary with a dominant horizontal component. -/
def onTouchMove1 (g : GSt) (currentX currentY : ℚ) : GSt :=
  if isZoomedForPan g.view then
    let dx := currentX - g.touchLastX
    let dy := currentY - g.touchLastY
    let targetX := g.view.viewX + dx
    let targetY := g.view.viewY + dy
    let c := clampPan g.view targetX targetY g.view.viewScale
    let hitHorizontalEdge := |targetX - c.1| > (0.5 : ℚ)
    let g1 := { g with
      view := { g.view with viewX := c.1, viewY := c.2 },
      touchLastX := currentX, touchLastY := currentY }
    if hitHorizontalEdge ∧ |dx| > |dy| then
      { g1 with edgeSwipeDeltaX := g.edgeSwipeDeltaX + dx,
                swipeDeltaX := g.edgeSwipeDeltaX + dx }
    else
      { g1 with edgeSwipeDeltaX := 0, swipeDeltaX := 0 }
  else
    { g with
      swipeDeltaX := currentX - g.touchStartX,
      view := { g.view with viewX := 0, viewY := 0 },
      touchLastX := currentX, touchLastY := currentY }

/-- `onTouchEnd` of part_004: pick the edge-swipe distance and the 65px
threshold when zoomed, the plain swipe distance and the 50px threshold
otherwise; emit `switch −1` past the positive threshold, `switch 1` past
the negative one; reset the trackers, and re-pin the pan when not
zoomed.  The emitted switch intents are returned as a list. -/
def onTouchEnd (g : GSt) : List Int × GSt :=
  let delta := if isZoomedForPan g.view then g.edgeSwipeDeltaX else g.swipeDeltaX
  let threshold : ℚ := if isZoomedForPan g.view then 65 else 50
  let emits : List Int :=
    if delta > threshold then [-1]
    else if delta < -threshold then [1]
    else []
  let g1 := { g with swipeDeltaX := 0, edgeSwipeDeltaX := 0 }
  let g2 :=
    if isZoomedForPan g.view then g1
    else { g1 with view := { g1.view with viewX := 0, viewY := 0 } }
  (emits, g2)

end Part004

namespace WebViewer

/-- Viewer state of `web/src/components/ImageViewer.vue`: this variant
keeps no clamping geometry, only the four refs. -/
structure St where
  viewScale : ℚ
  minScale : ℚ
  viewX : ℚ
  viewY : ℚ
deriving DecidableEq, Repr

/-- `onDrag` of the web viewer: set the pan to the raw pointer offset
from the drag anchor — no clamping. -/
def onDrag (s : St) (clientX clientY dragStartX dragStartY : ℚ) : St :=
  { s with viewX := clientX - dragStartX, viewY := clientY - dragStartY }

/-- Zoom-mode branch of `onWheel` in the web viewer: clamp the new scale
to `[minScale, 20]`; the pan is left as is (no re-clamp). -/
def onWheelZoom (s : St) (deltaY : ℚ) : St :=
  let newScale0 := if deltaY > 0 then s.viewScale / (1.1 : ℚ) else s.viewScale * (1.1 : ℚ)
  { s with viewScale := max s.minScale (min newScale0 20) }

/-- Pinch branch of `onTouchMove` in the web viewer: clamp the new scale
to `[minScale, 20]`; the pan is left as is. -/
def onPinch (s : St) (dist lastDist : ℚ) : St :=
  { s with viewScale := max s.minScale (min (s.viewScale * (dist / lastDist)) 20) }

/-- Gesture state of the web viewer: viewer state plus the drag anchor
(`dragStartX/Y`, set at touch-start to `clientX − viewX`) and the swipe
tracker `swipeDeltaX`. -/
structure GSt where
  view : St
  dragStartX : ℚ
  dragStartY : ℚ
  swipeDeltaX : ℚ
deriving DecidableEq, Repr

/-- Single-finger branch of `onTouchMove` in the web viewer: at (roughly)
fit scale — `viewScale ≤ minScale * 2.0` — track the swipe distance and
force the pan to `(0,0)`; otherwise fall through to `onDrag`. -/
def onTouchMove1 (g : GSt) (clientX clientY : ℚ) : GSt :=
  if g.view.viewScale ≤ g.view.minScale * 2 then
    { g with
      swipeDeltaX := clientX - g.dragStartX,
      view := { g.view with viewX := 0, viewY := 0 } }
  else
    { g with view := onDrag g.view clientX clientY g.dragStartX g.dragStartY }

/-- `onTouchEnd` of the web viewer: at fit scale, emit `switch −1` when
the swipe distance exceeds 50, `switch 1` below −50, then reset the
tracker and the pan; when zoomed in, do nothing. -/
def onTouchEnd (g : GSt) : List Int × GSt :=
  if g.view.viewScale ≤ g.view.minScale * 2 then
    let emits : List Int :=
      if g.swipeDeltaX > 50 then [-1]
      else if g.swipeDeltaX < -50 then [1]
      else []
    (emits, { g with swipeDeltaX := 0,
                     view := { g.view with viewX := 0, viewY := 0 } })
  else ([], g)

end WebViewer

/-- Switch-mode branch of `onWheel` (textually identical in part_004 and
the web viewer): add `deltaY` to the accumulator; once its absolute value
reaches the threshold 40, emit exactly one switch intent (`steps` is
clamped to 1 in the source) in the direction of the accumulator's sign
and reset the accumulator to 0.  Returns the emitted intents and the new
accumulator. -/
def onWheelSwitch (acc deltaY : ℚ) : List Int × ℚ :=
  let a := acc + deltaY
  if |a| ≥ 40 then ((if a > 0 then [1] else [-1]), 0)
  else ([], a)

/-- Process a sequence of wheel events in switch mode, collecting all
emitted switch intents. -/
def runWheelSwitch (acc : ℚ) : List ℚ → List Int × ℚ
  | [] => ([], acc)
  | d :: t =>
    let r := onWheelSwitch acc d
    let rest := runWheelSwitch r.2 t
    (r.1 ++ rest.1, rest.2)

namespace Gallery

/-- Gallery list state shared by `App.vue` and `mobile/app.js`:
the refs `images`, `page`, `hasMore`, `loading`. -/
structure St where
  images : List Image
  page : Nat
  hasMore : Bool
  loading : Bool
deriving DecidableEq, Repr

/-- The outcome of the `/api/images` round trip: `error` when the fetch
or JSON decode throws, otherwise the decoded `images` and `has_more`
fields. -/
def FetchResult := Except Unit (List Image × Bool)

/-- `path ∈ images` test used by the web dedup step
(`new Set(images.map(i => i.file_path)).has(path)`). -/
def hasPath (images : List Image) (p : String) : Bool :=
  images.any (fun i => i.path == p)

/-- Success path of the web `fetchImages`: an empty page clears
`hasMore`; otherwise append only the incoming images whose `file_path`
is not already present ("Strict Deduplication"), bumping `page` when
anything was appended, and take over `has_more`. -/
def appendPageWeb (st1 : St) (imgs : List Image) (more : Bool) : St :=
  if imgs = [] then { st1 with hasMore := false }
  else
    let uniqueNew := imgs.filter (fun i => !(hasPath st1.images i.path))
    let st2 :=
      if uniqueNew = [] then st1
      else { st1 with images := st1.images ++ uniqueNew, page := st1.page + 1 }
    { st2 with hasMore := more }

/-- `fetchImages` of `web/src/App.vue`: bail out while `loading`; a
refresh first resets `page`, clears `images` and re-arms `hasMore`; bail
out when `hasMore` is exhausted; a thrown fetch only logs (the list keeps
whatever the earlier steps left); a successful response is folded in by
`appendPageWeb`. -/
def fetchImagesWeb (st : St) (isRefresh : Bool) (result : FetchResult) : St :=
  if st.loading then st
  else
    let st1 := if isRefresh then { st with page := 1, images := [], hasMore := true } else st
    if st1.hasMore then
      match result with
      | .error _ => st1
      | .ok (imgs, more) => appendPageWeb st1 imgs more
    else st1

/-- `fetchImages` of `mobile/app.js`: same shape as the web version but
the incoming images are appended with no deduplication
(`images.value = [...images.value, ...newImages]`), and `page` is always
bumped on a non-empty page. -/
def fetchImagesMobile (st : St) (isRefresh : Bool) (result : FetchResult) : St :=
  if st.loading then st
  else
    let st1 := if isRefresh then { st with page := 1, images := [], hasMore := true } else st
    if st1.hasMore then
      match result with
      | .error _ => st1
      | .ok (imgs, more) =>
        if imgs = [] then { st1 with hasMore := false }
        else { st1 with images := st1.images ++ imgs, page := st1.page + 1, hasMore := more }
    else st1

/-- Application state around a refresh: the gallery list plus the
`selectedImage` ref.  `fetchImages` in `web/src/App.vue` never touches
`selectedImage`. -/
structure AppSt where
  gallery : St
  selectedImage : Option Image
deriving DecidableEq, Repr

/-- A gallery refresh as `web/src/App.vue` performs it: run
`fetchImages(true)`; `selectedImage` is not touched by the refresh. -/
def refreshWeb (app : AppSt) (result : FetchResult) : AppSt :=
  { app with gallery := fetchImagesWeb app.gallery true result }

/-- The `watch` on `props.selectedImage?.file_path` in part_004
(lines 75–88): the reset body runs only when the new path is non-empty
and differs from the old one. -/
def viewerResets (oldPath newPath : String) : Bool :=
  !(newPath == "" || newPath == oldPath)

/-- Effect of the part_004 path watch on the viewer state: reset
`viewScale`/`viewX`/`viewY` (and the gesture accumulators) when
`viewerResets`, otherwise leave the viewer untouched. -/
def watchStep (v : Part004.St) (oldPath newPath : String) : Part004.St :=
  if viewerResets oldPath newPath then
    { v with viewScale := 1, viewX := 0, viewY := 0 }
  else v

/-- Poll-loop state of `mobile/app.js`: `comfyStatus.queue_remaining`
and the task list `queueData.pending` (ids only). -/
structure PollSt where
  queueRemaining : Nat
  pending : List String
deriving DecidableEq, Repr

/-- One successful tick of `pollComfyStatus` in `mobile/app.js`:
remember the previous `queue_remaining`, overwrite it from the status
response, and schedule one delayed gallery refresh (`setTimeout(...,
1000)`) exactly when the count transitions `>0 → 0` while the
previously-fetched `queueData.pending` is empty; then take over the
pending list (and, when present, the queue endpoint's own
`queue_remaining`) from the queue response.  Returns the new state and
the number of refreshes scheduled by this tick. -/
def pollTick (st : PollSt) (statusRemaining : Nat) (pendingNew : List String)
    (qRemaining : Option Nat) : PollSt × Nat :=
  let prev := st.queueRemaining
  let refreshes := if prev > 0 ∧ statusRemaining = 0 ∧ st.pending = [] then 1 else 0
  ({ queueRemaining := qRemaining.getD statusRemaining, pending := pendingNew }, refreshes)

/-- Run a sequence of successful poll ticks (each input is the status
count, the freshly fetched pending list, and the queue endpoint's
optional own count), accumulating the total number of gallery refreshes
scheduled. -/
def pollTrace (st : PollSt) : List (Nat × List String × Option Nat) → PollSt × Nat
  | [] => (st, 0)
  | i :: t =>
    let r := pollTick st i.1 i.2.1 i.2.2
    let rest := pollTrace r.1 t
    (rest.1, r.2 + rest.2)

/-- Entry guard of `pollComfyStatus` in `mobile/app.js`: a tick that
fires while `isPolling` is set returns immediately (no fetch); otherwise
the flag is set and one queue-status fetch is started.  Returns the flag
state upon entering the body and the number of fetches started. -/
def pollEnter (isPolling : Bool) : Bool × Nat :=
  if isPolling then (isPolling, 0) else (true, 1)

/-- `fetchQueue` of `web/src/components/QueueModal.vue` as invoked by its
`setInterval` timer: it sets `loading` and starts a fetch unconditionally
— there is no check of `loading` (or any other in-flight guard) before
fetching.  Returns the `loading` flag upon entering the body and the
number of fetches started. -/
def fetchQueueEnter (_loading : Bool) : Bool × Nat :=
  (true, 1)

/-- `navigateImage` of `web/src/App.vue`: look up the selected path
(`findIndex`, −1 when absent), step by `dir`, and open the target via
`viewDetail` only when the index lands inside the list; otherwise nothing
happens.  Returns the resulting selection. -/
def navigateImageWeb (images : List Image) (selected : Image) (dir : Int) : Image :=
  let idx : Int := ((images.findIdx? (fun i => i.path == selected.path)).map
    (fun n => (n : Int))).getD (-1)
  let nextIdx := idx + dir
  if 0 ≤ nextIdx ∧ nextIdx < images.length then
    ((images.get? nextIdx.toNat).getD selected)
  else selected

/-- `navigateImage` of `mobile/app.js`: as the web version but with an
explicit early return when the selected path is not found (`idx === -1`). -/
def navigateImageMobile (images : List Image) (selected : Image) (dir : Int) : Image :=
  match images.findIdx? (fun i => i.path == selected.path) with
  | none => selected
  | some idx =>
    let nextIdx : Int := (idx : Int) + dir
    if 0 ≤ nextIdx ∧ nextIdx < images.length then
      ((images.get? nextIdx.toNat).getD selected)
    else selected

/-- `handleKeydown` of `mobile/app.js`: ArrowLeft opens the previous
image only when `idx > 0`, ArrowRight the next only when
`idx < images.length - 1`; other keys (and an absent selection) leave the
selection alone. -/
def handleKeydownMobile (images : List Image) (selected : Image) (key : String) : Image :=
  match images.findIdx? (fun i => i.path == selected.path) with
  | none => selected
  | some idx =>
    if key = "ArrowLeft" then
      if 0 < idx then (images.get? (idx - 1)).getD selected else selected
    else if key = "ArrowRight" then
      if idx < images.length - 1 then (images.get? (idx + 1)).getD selected else selected
    else selected

end Gallery

/-! Helper lemmas. -/

/-- Both components of `getPanBounds` are nonnegative. -/
theorem getPanBounds_nonneg (s : Part004.St) (scale : ℚ) :
    0 ≤ (Part004.getPanBounds s scale).1 ∧ 0 ≤ (Part004.getPanBounds s scale).2 := by
  unfold Part004.getPanBounds
  split <;> simp

/-- The output of `clampPan` lies within the pan bounds on each axis. -/
theorem abs_clampPan_le (s : Part004.St) (x y scale : ℚ) :
    |(Part004.clampPan s x y scale).1| ≤ (Part004.getPanBounds s scale).1 ∧
    |(Part004.clampPan s x y scale).2| ≤ (Part004.getPanBounds s scale).2 := by
  obtain ⟨h1, h2⟩ := getPanBounds_nonneg s scale
  unfold Part004.clampPan
  constructor <;> rw [abs_le] <;>
    refine ⟨le_min (by linarith) (le_max_left _ _), min_le_left _ _⟩

/-! Claim C1.  The claim quantifies over every pan and zoom operation of
both viewer components; the web viewer's `onDrag` sets the pan without
clamping, refuting it there, while every part_004 operation clamps. -/

/-- C1 counterexample: in the web viewer (`ImageViewer.vue`), a mouse
drag to `clientX = 1000` from anchor 0 stores pan `x = 1000`; for a
100×100 image in a 100×100 container at scale 2 the claimed bound is
`max 0 ((2·100 − 100)/2) = 50`, so the claimed invariant
`|pan.x| ≤ max 0 ((scale·naturalWidth − containerWidth)/2)` fails. -/
theorem c1_counterexample :
    (WebViewer.onDrag ⟨2, 1, 0, 0⟩ 1000 0 0 0).viewX = 1000 ∧
    ¬ (|(WebViewer.onDrag ⟨2, 1, 0, 0⟩ 1000 0 0 0).viewX| ≤ max 0 ((2 * 100 - 100) / 2)) := by
  norm_num [WebViewer.onDrag]

/-- C1 (amended): in the part_004 viewer, every pan or zoom operation
(mouse drag, single-finger touch move in either branch, wheel zoom,
pinch zoom) leaves the pan offset within `getPanBounds` at the resulting
scale — `|pan| ≤ max 0 ((scale·naturalSize − containerSize)/2)` per axis,
hence pinned to 0 on an axis where the scaled image fits inside the
container, and re-clamped against the new bounds after any scale
change.  (The web viewer's `onDrag` does not clamp; see the
counterexample.) -/
theorem c1_part004_pan_clamped (s : Part004.St) (g : Part004.GSt)
    (cx cy dx dy dist lastDist dY tx ty : ℚ) :
    (|(Part004.onDrag s cx cy dx dy).viewX| ≤ (Part004.getPanBounds s s.viewScale).1 ∧
     |(Part004.onDrag s cx cy dx dy).viewY| ≤ (Part004.getPanBounds s s.viewScale).2) ∧
    (|(Part004.onWheelZoom s dY).viewX| ≤
        (Part004.getPanBounds s (Part004.onWheelZoom s dY).viewScale).1 ∧
     |(Part004.onWheelZoom s dY).viewY| ≤
        (Part004.getPanBounds s (Part004.onWheelZoom s dY).viewScale).2) ∧
    (|(Part004.onPinch s dist lastDist).viewX| ≤
        (Part004.getPanBounds s (Part004.onPinch s dist lastDist).viewScale).1 ∧
     |(Part004.onPinch s dist lastDist).viewY| ≤
        (Part004.getPanBounds s (Part004.onPinch s dist lastDist).viewScale).2) ∧
    (|(Part004.onTouchMove1 g tx ty).view.viewX| ≤
        (Part004.getPanBounds g.view g.view.viewScale).1 ∧
     |(Part004.onTouchMove1 g tx ty).view.viewY| ≤
        (Part004.getPanBounds g.view g.view.viewScale).2) := by
  refine ⟨?_, ?_, ?_, ?_⟩
  · simpa [Part004.onDrag] using abs_clampPan_le s (cx - dx) (cy - dy) s.viewScale
  · simpa [Part004.onWheelZoom] using
      abs_clampPan_le s s.viewX s.viewY
        (max s.minScale (min (if dY > 0 then s.viewScale / (1.1 : ℚ)
          else s.viewScale * (1.1 : ℚ)) 20))
  · simpa [Part004.onPinch] using
      abs_clampPan_le s s.viewX s.viewY
        (max s.minScale (min (s.viewScale * (dist / lastDist)) 20))
  · unfold Part004.onTouchMove1
    obtain ⟨hb1, hb2⟩ := getPanBounds_nonneg g.view g.view.viewScale
    split
    · simp only []
      split <;>
        simpa using abs_clampPan_le g.view (g.view.viewX + (tx - g.touchLastX))
          (g.view.viewY + (ty - g.touchLastY)) g.view.viewScale
    · constructor <;> simpa

/-! Claim C2.  The stored scale is `max minScale (min newScale 20)`, so it
always dominates `minScale` but exceeds 20 whenever the fit scale itself
does — possible for a small image in a large container. -/

/-- C2 counterexample: a 16×16 image in a 512×512 container has fit scale
`minScale = min(512/16, 512/16) = 32`.  A wheel zoom-in stores
`max 32 (min (32·1.1) 20) = 32`, violating the claimed `scale ≤ 20`. -/
theorem c2_counterexample :
    (Part004.onWheelZoom ⟨32, 32, 0, 0, 16, 16, 512, 512⟩ (-1)).viewScale = 32 ∧
    ¬ ((Part004.onWheelZoom ⟨32, 32, 0, 0, 16, 16, 512, 512⟩ (-1)).viewScale ≤ 20) := by
  norm_num [Part004.onWheelZoom, Part004.clampPan, Part004.getPanBounds]

/-- C2 (amended): every scale stored by wheel zoom or pinch zoom in
part_004 satisfies `minScale ≤ scale`, and additionally `scale ≤ 20`
provided the per-image fit scale does not itself exceed 20. -/
theorem c2_scale_clamped (s : Part004.St) (dY dist lastDist : ℚ) :
    (s.minScale ≤ (Part004.onWheelZoom s dY).viewScale ∧
      (s.minScale ≤ 20 → (Part004.onWheelZoom s dY).viewScale ≤ 20)) ∧
    (s.minScale ≤ (Part004.onPinch s dist lastDist).viewScale ∧
      (s.minScale ≤ 20 → (Part004.onPinch s dist lastDist).viewScale ≤ 20)) := by
  constructor <;> constructor
  · simp only [Part004.onWheelZoom]
    exact le_max_left _ _
  · intro h
    simp only [Part004.onWheelZoom]
    exact max_le h (min_le_right _ _)
  · simp only [Part004.onPinch]
    exact le_max_left _ _
  · intro h
    simp only [Part004.onPinch]
    exact max_le h (min_le_right _ _)

/-- C2 witness: at fit scale 1 (100×100 image in a 100×100 container)
a wheel zoom-in stores a scale that is at most 20. -/
theorem c2_witness :
    (1 : ℚ) ≤ 20 ∧ (Part004.onWheelZoom ⟨1, 1, 0, 0, 100, 100, 100, 100⟩ (-3)).viewScale ≤ 20 := by
  refine ⟨by norm_num, ?_⟩
  exact (c2_scale_clamped ⟨1, 1, 0, 0, 100, 100, 100, 100⟩ (-3) 1 1).1.2 (by norm_num)

/-! Claim C3: the wheel switch-mode accumulator. -/

/-- Generalised crossing lemma: starting from any accumulator value, if
every proper initial segment of the event sequence keeps the accumulator
strictly under the threshold and the full sequence reaches it, then
running the sequence emits exactly one switch intent — in the direction
of the accumulator's sign — and leaves the accumulator at 0. -/
theorem runWheelSwitch_cross (ds : List ℚ) : ∀ acc : ℚ, ds ≠ [] →
    (∀ n, n < ds.length → |acc + (ds.take n).sum| < 40) →
    40 ≤ |acc + ds.sum| →
    runWheelSwitch acc ds = ([if 0 < acc + ds.sum then 1 else -1], 0) := by
  induction ds with
  | nil => intro acc h _ _; exact absurd rfl h
  | cons d t ih =>
    intro acc _ hpre hcross
    by_cases ht : t = []
    · subst ht
      have ha : 40 ≤ |acc + d| := by simpa using hcross
      simp only [runWheelSwitch, onWheelSwitch]
      rw [if_pos ha]
      simp only [runWheelSwitch, List.sum_cons, List.sum_nil, add_zero, List.append_nil]
      split <;> rfl
    · have hlen : 1 < (d :: t).length := by
        have : t.length ≠ 0 := fun h0 => ht (List.eq_nil_of_length_eq_zero h0)
        simp only [List.length_cons]
        omega
      have hd : |acc + d| < 40 := by simpa using hpre 1 hlen
      have step : onWheelSwitch acc d = ([], acc + d) := by
        simp only [onWheelSwitch]
        rw [if_neg (not_le.mpr hd)]
      have hpre2 : ∀ n, n < t.length → |(acc + d) + (t.take n).sum| < 40 := by
        intro n hn
        have := hpre (n + 1) (by simp only [List.length_cons]; omega)
        simpa [List.take_succ_cons, add_assoc] using this
      have hcross2 : 40 ≤ |(acc + d) + t.sum| := by
        simpa [add_assoc] using hcross
      have hrun := ih (acc + d) ht hpre2 hcross2
      simp only [runWheelSwitch, step]
      simp [hrun, add_assoc]

/-- C3: in wheel switch-mode, a sequence of wheel events whose
accumulated `deltaY` first reaches absolute value 40 at its final event
(covering both the exact-threshold case and a single huge delta such as
500) emits exactly one switch intent of magnitude one, in the direction
of the accumulator's sign, and leaves the accumulator at 0 immediately
after emitting. -/
theorem c3_wheel_switch_fires_once (ds : List ℚ)
    (hpre : ∀ n, n < ds.length → |(ds.take n).sum| < 40)
    (hcross : 40 ≤ |ds.sum|) :
    runWheelSwitch 0 ds = ([if 0 < ds.sum then 1 else -1], 0) := by
  have hne : ds ≠ [] := by
    intro h
    subst h
    simp only [List.sum_nil, abs_zero] at hcross
    norm_num at hcross
  have := runWheelSwitch_cross ds 0 hne (by simpa using hpre) (by simpa using hcross)
  simpa using this

/-- C3 witness: a single wheel event of `deltaY = 500` emits exactly one
switch intent (not twelve) and resets the accumulator to 0. -/
theorem c3_witness :
    (∀ n, n < ([(500 : ℚ)] : List ℚ).length → |(([(500 : ℚ)] : List ℚ).take n).sum| < 40) ∧
    40 ≤ |([(500 : ℚ)] : List ℚ).sum| ∧
    runWheelSwitch 0 [(500 : ℚ)] = ([1], 0) := by
  have h1 : ∀ n, n < ([(500 : ℚ)] : List ℚ).length → |(([(500 : ℚ)] : List ℚ).take n).sum| < 40 := by
    intro n hn
    simp only [List.length_singleton] at hn
    interval_cases n
    norm_num
  have h2 : (40 : ℚ) ≤ |([(500 : ℚ)] : List ℚ).sum| := by norm_num
  refine ⟨h1, h2, ?_⟩
  have := c3_wheel_switch_fires_once [(500 : ℚ)] h1 h2
  norm_num at this
  exact this

/-! Claim C4.  The claim's fit-branch condition `scale ≤ minScale × 2.0`
matches the web viewer; part_004 switches to its pan branch already at
`scale > minScale × 1.02`, so within the claimed range its pan moves. -/

/-- C4 counterexample: in part_004, with a 100×100 image in a 100×100
container (fit scale 1) zoomed to scale 1.5 — which satisfies the
claim's `scale ≤ minScale × 2.0` — a single-finger move by 10px pans the
image to `viewX = 10`: the pan is not pinned at `(0,0)`.  (part_004 uses
the factor 1.02, not 2.0, and its zoomed touch-end threshold is 65, not
50.) -/
theorem c4_counterexample :
    (⟨⟨1.5, 1, 0, 0, 100, 100, 100, 100⟩, 0, 0, 0, 0, 0⟩ : Part004.GSt).view.viewScale ≤
      (⟨⟨1.5, 1, 0, 0, 100, 100, 100, 100⟩, 0, 0, 0, 0, 0⟩ : Part004.GSt).view.minScale * 2 ∧
    (Part004.onTouchMove1 ⟨⟨1.5, 1, 0, 0, 100, 100, 100, 100⟩, 0, 0, 0, 0, 0⟩ 10 0).view.viewX
      = 10 ∧
    (10 : ℚ) ≠ 0 := by
  norm_num [Part004.onTouchMove1, Part004.isZoomedForPan, Part004.clampPan, Part004.getPanBounds]

/-- C4 (amended): in the web viewer (`ImageViewer.vue`), while
`scale ≤ minScale × 2.0`, a single-finger touch move keeps the pan
pinned at `(0,0)` and only tracks the gesture distance, and touch-end
emits exactly one switch intent exactly when the tracked distance
strictly exceeds 50px (positive distance emits −1, the previous image;
negative emits +1, the next image) and none otherwise; in part_004 the
same fit-branch behaviour applies only while `scale ≤ minScale × 1.02`. -/
theorem c4_web_fit_swipe (g : WebViewer.GSt) (cx cy : ℚ)
    (hfit : g.view.viewScale ≤ g.view.minScale * 2) :
    ((WebViewer.onTouchMove1 g cx cy).view.viewX = 0 ∧
     (WebViewer.onTouchMove1 g cx cy).view.viewY = 0 ∧
     (WebViewer.onTouchMove1 g cx cy).swipeDeltaX = cx - g.dragStartX) ∧
    ((WebViewer.onTouchEnd g).1 =
      if g.swipeDeltaX > 50 then [-1] else if g.swipeDeltaX < -50 then [1] else []) := by
  constructor
  · simp [WebViewer.onTouchMove1, if_pos hfit]
  · simp [WebViewer.onTouchEnd, if_pos hfit]

/-- C4 witness: at fit scale (scale 1, minScale 1) with a tracked swipe
distance of 51px, touch-end emits exactly one switch intent towards the
previous image; the preceding move kept the pan at `(0,0)`. -/
theorem c4_witness :
    ((⟨⟨1, 1, 0, 0⟩, 0, 0, 51⟩ : WebViewer.GSt).view.viewScale ≤
      (⟨⟨1, 1, 0, 0⟩, 0, 0, 51⟩ : WebViewer.GSt).view.minScale * 2) ∧
    (WebViewer.onTouchMove1 ⟨⟨1, 1, 0, 0⟩, 0, 0, 51⟩ 51 0).view.viewX = 0 ∧
    (WebViewer.onTouchEnd ⟨⟨1, 1, 0, 0⟩, 0, 0, 51⟩).1 = [-1] := by
  have h := c4_web_fit_swipe ⟨⟨1, 1, 0, 0⟩, 0, 0, 51⟩ 51 0 (by norm_num)
  refine ⟨by norm_num, h.1.1, ?_⟩
  rw [h.2]
  norm_num

/-! Claim C5.  The mobile completion branch additionally requires the
previously-fetched `queueData.pending` to be empty, and that list is
only updated after the check, so a genuine `>0 → 0` transition observed
while the stale pending list is non-empty schedules no refresh at all. -/

/-- Auxiliary: once the remembered count is 0, a run of ticks that keep
reporting 0 schedules no refresh. -/
theorem pollTrace_zero_of_idle (k : Nat) : ∀ ps : List String,
    (Gallery.pollTrace ⟨0, ps⟩ (List.replicate k (0, [], none))).2 = 0 := by
  induction k with
  | zero => intro ps; rfl
  | succ n ih =>
    intro ps
    simpa [Gallery.pollTrace, Gallery.pollTick] using ih []

/-- C5 counterexample: the polled count transitions `1 → 0`, but the
pending list fetched on the previous tick still holds a task, so the
mobile completion branch schedules zero refreshes — not the exactly one
the claim requires for every such transition. -/
theorem c5_counterexample :
    (Gallery.pollTick ⟨1, ["job"]⟩ 0 [] none).2 = 0 ∧
    ¬ ((Gallery.pollTick ⟨1, ["job"]⟩ 0 [] none).2 = 1) := by
  constructor
  · rfl
  · intro h
    simp [Gallery.pollTick] at h

/-- C5 (amended): a tick of the mobile poll loop schedules exactly one
(1000ms-delayed) gallery refresh when the count transitions from `>0` to
0 while the previously-fetched pending list is empty, and zero refreshes
otherwise — in particular none on any tick at which the remembered count
is already 0; hence the scenario "count goes 1 → 0 once, then stays 0
for any number of further ticks" schedules exactly one refresh in
total. -/
theorem c5_one_refresh_per_transition (st : Gallery.PollSt) (a : Nat)
    (p : List String) (q : Option Nat) (k : Nat) :
    ((Gallery.pollTick st a p q).2 =
      if 0 < st.queueRemaining ∧ a = 0 ∧ st.pending = [] then 1 else 0) ∧
    (st.queueRemaining = 0 → (Gallery.pollTick st a p q).2 = 0) ∧
    (Gallery.pollTrace ⟨1, []⟩ ((0, [], none) :: List.replicate k (0, [], none))).2 = 1 := by
  refine ⟨rfl, ?_, ?_⟩
  · intro h
    simp [Gallery.pollTick, h]
  · simpa [Gallery.pollTrace, Gallery.pollTick] using pollTrace_zero_of_idle k []

/-- C5 witness: a concrete tick whose remembered count is already 0
schedules no refresh, and the concrete `1 → 0` scenario followed by five
idle ticks schedules exactly one refresh in total. -/
theorem c5_witness :
    ((⟨0, []⟩ : Gallery.PollSt).queueRemaining = 0) ∧
    (Gallery.pollTick ⟨0, []⟩ 0 [] none).2 = 0 ∧
    (Gallery.pollTrace ⟨1, []⟩ ((0, [], none) :: List.replicate 5 (0, [], none))).2 = 1 := by
  refine ⟨rfl, ?_, ?_⟩
  · exact (c5_one_refresh_per_transition ⟨0, []⟩ 0 [] none 0).2.1 rfl
  · exact (c5_one_refresh_per_transition ⟨0, []⟩ 0 [] none 5).2.2

/-! Claim C6.  Both `fetchImages` implementations clear the list before
the network round trip when refreshing, so a failed refresh leaves the
list empty rather than intact. -/

/-- C6 counterexample: a refresh that fails over a one-element list
leaves the list empty — not "exactly as it was before the refresh was
initiated". -/
theorem c6_counterexample :
    (Gallery.fetchImagesWeb ⟨[⟨"a", 1⟩], 2, true, false⟩ true (.error ())).images = [] ∧
    ([] : List Image) ≠ [⟨"a", 1⟩] := by
  refine ⟨rfl, by decide⟩

/-- C6 (amended): a failed non-refresh (pagination) fetch leaves the
image list exactly as it was, in both the web and the mobile client; a
failed refresh leaves the list empty, because the refresh clears it
before fetching (when not short-circuited by the `loading` guard). -/
theorem c6_fetch_failure_semantics (st : Gallery.St) (e : Unit) :
    (Gallery.fetchImagesWeb st false (.error e)).images = st.images ∧
    (Gallery.fetchImagesMobile st false (.error e)).images = st.images ∧
    (st.loading = false → (Gallery.fetchImagesWeb st true (.error e)).images = [] ∧
      (Gallery.fetchImagesMobile st true (.error e)).images = []) := by
  refine ⟨?_, ?_, ?_⟩
  · simp only [Gallery.fetchImagesWeb]
    split
    · rfl
    · simp [ite_self]
  · simp only [Gallery.fetchImagesMobile]
    split
    · rfl
    · simp [ite_self]
  · intro h
    constructor
    · simp [Gallery.fetchImagesWeb, h]
    · simp [Gallery.fetchImagesMobile, h]

/-- C6 witness: with a concrete non-loading state, a failed pagination
fetch keeps the one-element list and a failed refresh empties it. -/
theorem c6_witness :
    ((⟨[⟨"a", 1⟩], 2, true, false⟩ : Gallery.St).loading = false) ∧
    (Gallery.fetchImagesWeb ⟨[⟨"a", 1⟩], 2, true, false⟩ false (.error ())).images = [⟨"a", 1⟩] ∧
    (Gallery.fetchImagesMobile ⟨[⟨"a", 1⟩], 2, true, false⟩ true (.error ())).images = [] := by
  refine ⟨rfl, ?_, ?_⟩
  · exact (c6_fetch_failure_semantics ⟨[⟨"a", 1⟩], 2, true, false⟩ ()).1
  · exact ((c6_fetch_failure_semantics ⟨[⟨"a", 1⟩], 2, true, false⟩ ()).2.2 rfl).2

/-! Claim C7.  No code merges refreshed fields into the selected object:
`fetchImages` in `web/src/App.vue` rebuilds the list from fresh objects
and never touches `selectedImage`.  The selected reference (and hence
its `file_path`) is therefore unchanged, which is what keeps the
part_004 path-watch from resetting pan/zoom. -/

/-- C7 counterexample: a refresh whose response carries the selected
path `"a"` with updated fields (`mtime = 2`) leaves the selected object
still holding the old fields (`mtime = 1`): the new fields are not
merged into the existing object. -/
theorem c7_counterexample :
    (Gallery.refreshWeb ⟨⟨[⟨"a", 1⟩], 2, true, false⟩, some ⟨"a", 1⟩⟩
        (.ok ([⟨"a", 2⟩], false))).gallery.images = [⟨"a", 2⟩] ∧
    (Gallery.refreshWeb ⟨⟨[⟨"a", 1⟩], 2, true, false⟩, some ⟨"a", 1⟩⟩
        (.ok ([⟨"a", 2⟩], false))).selectedImage = some ⟨"a", 1⟩ ∧
    some (⟨"a", 1⟩ : Image) ≠ some (⟨"a", 2⟩ : Image) := by
  refine ⟨rfl, rfl, by decide⟩

/-- C7 (amended): a gallery refresh never touches the selected object at
all — its reference is preserved because `fetchImages` does not write
`selectedImage` (its fields are left stale rather than merged) — and
since the watched `file_path` is therefore unchanged, the part_004
path-watch does not fire, leaving the viewer's pan and zoom state
unchanged. -/
theorem c7_refresh_preserves_selection (app : Gallery.AppSt) (r : Gallery.FetchResult)
    (v : Part004.St) (p : String) :
    (Gallery.refreshWeb app r).selectedImage = app.selectedImage ∧
    Gallery.watchStep v p p = v := by
  refine ⟨rfl, ?_⟩
  simp [Gallery.watchStep, Gallery.viewerResets]

/-! Claim C8.  The web `fetchImages` deduplicates by path; the mobile
`fetchImages` appends the incoming page with no deduplication, so a
retried or overlapping fetch of the same page duplicates entries. -/

/-- Membership reading of the web dedup test. -/
theorem hasPath_iff (l : List Image) (p : String) :
    Gallery.hasPath l p = true ↔ p ∈ l.map Image.path := by
  simp only [Gallery.hasPath, List.any_eq_true, beq_iff_eq, List.mem_map]

/-- Appending the path-filtered batch preserves distinctness of paths. -/
theorem nodup_append_filtered (cur new : List Image)
    (hcur : (cur.map Image.path).Nodup) (hnew : (new.map Image.path).Nodup) :
    (((cur ++ new.filter fun i => !(Gallery.hasPath cur i.path)).map Image.path)).Nodup := by
  rw [List.map_append, List.nodup_append]
  refine ⟨hcur, hnew.sublist ((List.filter_sublist new).map Image.path), ?_⟩
  intro a ha hb
  obtain ⟨i, hi, hpath⟩ := List.mem_map.mp hb
  have hpred := List.of_mem_filter hi
  rw [Bool.not_eq_eq_eq_not, Bool.not_true] at hpred
  have : Gallery.hasPath cur i.path = true := (hasPath_iff cur i.path).mpr (hpath ▸ ha)
  simp [this] at hpred

/-- C8 counterexample: the mobile client, holding `[a]`, receives the
same image `a` again on a pagination fetch and ends with two entries of
the same path. -/
theorem c8_counterexample :
    (Gallery.fetchImagesMobile ⟨[⟨"a", 1⟩], 1, true, false⟩ false
        (.ok ([⟨"a", 1⟩], true))).images = [⟨"a", 1⟩, ⟨"a", 1⟩] ∧
    ¬ (((Gallery.fetchImagesMobile ⟨[⟨"a", 1⟩], 1, true, false⟩ false
        (.ok ([⟨"a", 1⟩], true))).images.map Image.path)).Nodup := by
  refine ⟨rfl, by decide⟩

/-- C8 (amended): in the web client, every fetch (refresh or
pagination) appends only images whose path is not already present, so
path-distinctness of the local list is an invariant of any sequence of
fetches — provided each server page is itself free of duplicate paths.
The mobile client appends without deduplication and violates the
invariant (see the counterexample). -/
theorem appendPageWeb_nodup (st1 : Gallery.St) (imgs : List Image) (more : Bool)
    (h1 : (st1.images.map Image.path).Nodup)
    (himgs : (imgs.map Image.path).Nodup) :
    (((Gallery.appendPageWeb st1 imgs more).images.map Image.path)).Nodup := by
  unfold Gallery.appendPageWeb
  split
  · exact h1
  · simp only []
    split
    · exact h1
    · simpa using nodup_append_filtered st1.images imgs h1 himgs

theorem fetchStep_nodup (st1 : Gallery.St) (imgs : List Image) (more : Bool)
    (h1 : (st1.images.map Image.path).Nodup)
    (himgs : (imgs.map Image.path).Nodup) :
    (((if st1.hasMore = true then Gallery.appendPageWeb st1 imgs more
        else st1).images.map Image.path)).Nodup := by
  split
  · exact appendPageWeb_nodup st1 imgs more h1 himgs
  · exact h1

theorem c8_web_fetch_preserves_nodup (st : Gallery.St) (isRefresh : Bool)
    (imgs : List Image) (more : Bool)
    (hst : (st.images.map Image.path).Nodup)
    (himgs : (imgs.map Image.path).Nodup) :
    (((Gallery.fetchImagesWeb st isRefresh (.ok (imgs, more))).images.map Image.path)).Nodup := by
  simp only [Gallery.fetchImagesWeb]
  split
  · exact hst
  · by_cases hr : isRefresh = true
    · rw [if_pos hr]
      exact fetchStep_nodup _ imgs more (by simp) himgs
    · rw [if_neg hr]
      exact fetchStep_nodup st imgs more hst himgs

/-- C8 witness: the web client, holding `[a]` with distinct paths,
receives a fresh page `[b]` with distinct paths and ends with distinct
paths. -/
theorem c8_witness :
    ((([⟨"a", 1⟩] : List Image).map Image.path)).Nodup ∧
    ((([⟨"b", 2⟩] : List Image).map Image.path)).Nodup ∧
    (((Gallery.fetchImagesWeb ⟨[⟨"a", 1⟩], 1, true, false⟩ false
        (.ok ([⟨"b", 2⟩], true))).images.map Image.path)).Nodup := by
  refine ⟨by decide, by decide, ?_⟩
  exact c8_web_fetch_preserves_nodup ⟨[⟨"a", 1⟩], 1, true, false⟩ false [⟨"b", 2⟩] true
    (by decide) (by decide)

/-! Claim C9.  The mobile poll loop carries an `isPolling` guard, but
`QueueModal.vue` drives `fetchQueue` from a bare `setInterval` with no
in-flight check, so a slow fetch overlaps the next one. -/

/-- C9 counterexample: a `QueueModal` interval tick that fires while a
fetch is still in flight (`loading = true`) starts another fetch — the
tick is not skipped. -/
theorem c9_counterexample :
    (Gallery.fetchQueueEnter true).2 = 1 ∧ ¬ ((Gallery.fetchQueueEnter true).2 = 0) := by
  decide

/-- C9 (amended): the mobile `pollComfyStatus` loop enforces the
in-flight guard — a tick arriving while `isPolling` is set starts no
fetch, and a tick arriving idle starts exactly one — but the
`QueueModal` interval poll has no such guard and always starts a
fetch. -/
theorem c9_mobile_guard_skips :
    (Gallery.pollEnter true).2 = 0 ∧ (Gallery.pollEnter false).2 = 1 ∧
    (Gallery.fetchQueueEnter false).2 = 1 := by
  decide

/-! Claim C10: switching past either end of the image list is a no-op. -/

/-- C10: for every image list and selected image, a switch request of
direction −1 while the selected path sits at index 0, or of direction +1
while it sits at the last index, leaves the selection unchanged — in the
web `navigateImage`, the mobile `navigateImage`, and the mobile
`handleKeydown` arrow-key handlers (none of which touch the image list
or the viewer in that case, since `viewDetail` is never invoked). -/
theorem c10_navigate_boundary_noop (images : List Image) (selected : Image)
    (hne : images ≠ []) :
    (images.findIdx? (fun i => i.path == selected.path) = some 0 →
      Gallery.navigateImageWeb images selected (-1) = selected ∧
      Gallery.navigateImageMobile images selected (-1) = selected ∧
      Gallery.handleKeydownMobile images selected "ArrowLeft" = selected) ∧
    (images.findIdx? (fun i => i.path == selected.path) = some (images.length - 1) →
      Gallery.navigateImageWeb images selected 1 = selected ∧
      Gallery.navigateImageMobile images selected 1 = selected ∧
      Gallery.handleKeydownMobile images selected "ArrowRight" = selected) := by
  have hlen : 1 ≤ images.length := List.length_pos.mpr hne
  constructor
  · intro h
    refine ⟨?_, ?_, ?_⟩
    · simp [Gallery.navigateImageWeb, h]
    · simp [Gallery.navigateImageMobile, h]
    · simp [Gallery.handleKeydownMobile, h]
  · intro h
    have hidx : ((images.findIdx? (fun i => i.path == selected.path)).map
        (fun n => (n : Int))).getD (-1) = ((images.length - 1 : Nat) : Int) := by
      rw [h]
      rfl
    refine ⟨?_, ?_, ?_⟩
    · simp only [Gallery.navigateImageWeb, hidx]
      rw [if_neg]
      rintro ⟨h1, h2⟩
      omega
    · simp only [Gallery.navigateImageMobile, h]
      rw [if_neg]
      rintro ⟨h1, h2⟩
      omega
    · simp only [Gallery.handleKeydownMobile, h]
      rw [if_pos trivial, if_neg (Nat.lt_irrefl _), if_neg (by decide)]

/-- C10 witness: on the concrete list `[a, b]`, switching left of `a`
and right of `b` both leave the selection unchanged. -/
theorem c10_witness :
    (([⟨"a", 1⟩, ⟨"b", 2⟩] : List Image) ≠ []) ∧
    Gallery.navigateImageWeb [⟨"a", 1⟩, ⟨"b", 2⟩] ⟨"a", 1⟩ (-1) = ⟨"a", 1⟩ ∧
    Gallery.navigateImageMobile [⟨"a", 1⟩, ⟨"b", 2⟩] ⟨"b", 2⟩ 1 = ⟨"b", 2⟩ := by
  refine ⟨by decide, ?_, ?_⟩
  · exact ((c10_navigate_boundary_noop [⟨"a", 1⟩, ⟨"b", 2⟩] ⟨"a", 1⟩ (by decide)).1
      (by decide)).1
  · exact ((c10_navigate_boundary_noop [⟨"a", 1⟩, ⟨"b", 2⟩] ⟨"b", 2⟩ (by decide)).2
      (by decide)).2.1

end Aimg
